import Mathlib

/-!
Verification of the query-translation and response-normalization layer of the
google_ads_mcp server (src/server.py, duplicated in src/standalone_server.py).

The embedding models Python runtime values by the inductive type PyVal, the
value converter _ensure_serializable, the per-row normalizer format_output_row,
the customer-id lister list_accessible_customers, and the search tool up to the
query string it hands to the backend (the backend RPC itself is external).
-/

set_option maxHeartbeats 1000000

namespace AdsMcp

mutual
/-- Python values as they occur in normalization.  Constructors mirror the
runtime types the source dispatches on: None, str, int, float, bool, proto.Enum
(which carries a symbolic name and a numeric code), objects exposing a pb
attribute (carried as their str() rendering), dict, list, tuple, and any other
object (carried as its str() rendering).  float values are carried opaquely as
their repr string, since the code never computes with them. -/
inductive PyVal where
  | pyNone : PyVal
  | str : String → PyVal
  | int : Int → PyVal
  | float : String → PyVal
  | bool : Bool → PyVal
  | enum : String → Int → PyVal
  | pb : String → PyVal
  | dict : PyEntries → PyVal
  | list : PyItems → PyVal
  | tuple : PyItems → PyVal
  | other : String → PyVal

inductive PyEntries where
  | nil : PyEntries
  | cons : PyVal → PyVal → PyEntries → PyEntries

inductive PyItems where
  | nil : PyItems
  | cons : PyVal → PyItems → PyItems
end

deriving instance DecidableEq for PyVal

/-- Truth of the Python test isinstance(obj, (str, int, float, bool)) or obj is
None (server.py line 112).  proto.Enum derives from enum.IntEnum, hence its
values satisfy isinstance(obj, int) and this first test is ALSO true for enum
values; bool is likewise an int subclass but is listed explicitly anyway. -/
def isPrimitive : PyVal → Bool
  | .pyNone => true
  | .str _ => true
  | .int _ => true
  | .float _ => true
  | .bool _ => true
  | .enum _ _ => true
  | _ => false

/-- Truth of isinstance(obj, proto.Enum) (server.py line 114). -/
def isProtoEnum : PyVal → Bool
  | .enum _ _ => true
  | _ => false

/-- Symbolic name of a proto.Enum value (obj.name); arbitrary elsewhere. -/
def protoEnumName : PyVal → String
  | .enum n _ => n
  | _ => ""

/-- Truth of hasattr(obj, underscore-pb) (server.py line 116). -/
def hasPbAttr : PyVal → Bool
  | .pb _ => true
  | _ => false

mutual
/-- Best-effort model of Python str() on a PyVal.  Exact for None, str, int,
bool, and for pb/other objects (whose constructors carry their str rendering);
floats carry their repr, which equals their str.  For proto.Enum values we use
the numeric rendering of enum.IntEnum (Python 3.11+); for containers we render
a repr-like form — no theorem below evaluates str() on those cases. -/
def pyStr : PyVal → String
  | .pyNone => "None"
  | .str s => s
  | .int n => toString n
  | .float r => r
  | .bool b => Bool.rec "False" "True" b
  | .enum _ c => toString c
  | .pb s => s
  | .dict es => "\x7b" ++ pyStrEntries es ++ "\x7d"
  | .list xs => "[" ++ pyStrItems xs ++ "]"
  | .tuple xs => "(" ++ pyStrItems xs ++ ")"
  | .other s => s

def pyStrEntries : PyEntries → String
  | .nil => ""
  | .cons k v .nil => pyStr k ++ ": " ++ pyStr v
  | .cons k v rest => pyStr k ++ ": " ++ pyStr v ++ ", " ++ pyStrEntries rest

def pyStrItems : PyItems → String
  | .nil => ""
  | .cons v .nil => pyStr v
  | .cons v rest => pyStr v ++ ", " ++ pyStrItems rest
end

mutual
/-- Embedding of _ensure_serializable (server.py lines 110-124 and
standalone_server.py lines 120-133, byte-identical logic).  The branches follow
the source if/elif chain in order.  Note that the first branch already returns
enum values unchanged (see isPrimitive), so the isProtoEnum branch can never
fire; it is kept to mirror the source. -/
def ensure_serializable (v : PyVal) : PyVal :=
  if isPrimitive v then v
  else if isProtoEnum v then .str (protoEnumName v)
  else if hasPbAttr v then .str (pyStr v)
  else match v with
    | .dict es => .dict (ensureEntries es)
    | .list xs => .list (ensureItems xs)
    | .tuple xs => .list (ensureItems xs)
    | w => .str (pyStr w)

def ensureEntries : PyEntries → PyEntries
  | .nil => .nil
  | .cons k v rest => .cons k (ensure_serializable v) (ensureEntries rest)

def ensureItems : PyItems → PyItems
  | .nil => .nil
  | .cons v rest => .cons (ensure_serializable v) (ensureItems rest)
end

/-- Embedding of format_output_value (server.py lines 127-133): the modelled
conversion is total, so the except branch of the source try block is
unreachable in the model. -/
def format_output_value (v : PyVal) : PyVal :=
  ensure_serializable v

/-- Values json.dumps accepts as dict keys: str, int, float, bool and None
(enum values count as ints). -/
def jsonKeyOK : PyVal → Bool
  | .pyNone => true
  | .str _ => true
  | .int _ => true
  | .float _ => true
  | .bool _ => true
  | .enum _ _ => true
  | _ => false

mutual
/-- Truth of json.dumps succeeding on a value: scalars (including IntEnum
values, serialized by their code) succeed; dicts need serializable keys and
values; lists and tuples recurse; other objects raise TypeError. -/
def jsonOK : PyVal → Bool
  | .pyNone => true
  | .str _ => true
  | .int _ => true
  | .float _ => true
  | .bool _ => true
  | .enum _ _ => true
  | .pb _ => false
  | .other _ => false
  | .dict es => jsonEntriesOK es
  | .list xs => jsonItemsOK xs
  | .tuple xs => jsonItemsOK xs

def jsonEntriesOK : PyEntries → Bool
  | .nil => true
  | .cons k v rest => jsonKeyOK k && jsonOK v && jsonEntriesOK rest

def jsonItemsOK : PyItems → Bool
  | .nil => true
  | .cons v rest => jsonOK v && jsonItemsOK rest
end

/-- Interface of a backend result row as the normalizer uses it: get_nested_attr
resolution of a dotted path (which may raise, yielding the exception message),
and getattr top-level attribute lookup (which may miss).  Rows come from the
external Google Ads client, so they are modelled as oracles. -/
structure AdsRow where
  nested : String → Except String PyVal
  top : String → Option PyVal

/-- Assignment result[k] = v on a Python dict modelled as an ordered
association list: an existing key keeps its position and gets the new value, a
new key is appended. -/
def dictInsert (d : List (String × PyVal)) (k : String) (v : PyVal) : List (String × PyVal) :=
  if d.any (fun p => p.1 == k) then d.map (fun p => if p.1 == k then (k, v) else p)
  else d ++ [(k, v)]

/-- Python dict built by inserting key a with value f a for each a in attrs, in
order; models both the result loop and the fallback dict comprehension of
format_output_row. -/
def pyDictOfComp (f : String → PyVal) (attrs : List String) : List (String × PyVal) :=
  attrs.foldl (fun acc a => dictInsert acc a (f a)) []

/-- Per-path value of the main loop of format_output_row (server.py lines
139-145): resolve the dotted path; on success convert, on exception store
the string Error: followed by str(e). -/
def rowValue (row : AdsRow) (a : String) : PyVal :=
  match row.nested a with
  | .ok v => format_output_value v
  | .error e => .str ("Error: " ++ e)

/-- First dotted-path segment, Python attr.split(chr 46)[0]: the characters
before the first dot, or the whole string when it has no dot. -/
def firstSegment (a : String) : String :=
  String.mk (a.data.takeWhile (fun c => c.toNat != 46))

/-- Per-path value of the fallback dict of format_output_row (server.py line
154): str(getattr(row, first segment, the string N/A)). -/
def fallbackValue (row : AdsRow) (a : String) : PyVal :=
  .str (match row.top (firstSegment a) with
        | some v => pyStr v
        | none => "N/A")

/-- Truth of json.dumps succeeding on the built result dict (string keys,
PyVal values). -/
def recordJsonOK (rec : List (String × PyVal)) : Bool :=
  rec.all (fun p => jsonOK p.2)

/-- Embedding of format_output_row (server.py lines 136-154 and
standalone_server.py lines 145-161): build the per-path record, test whole
record serializability, and fall back to top-level string extraction when the
test fails. -/
def format_output_row (row : AdsRow) (attributes : List String) : List (String × PyVal) :=
  let result := pyDictOfComp (rowValue row) attributes
  if recordJsonOK result then result
  else pyDictOfComp (fallbackValue row) attributes

/-- Python str.removeprefix: drop the leading occurrence of p when s starts
with it, else return s unchanged. -/
def pyStripLeading (s p : String) : String :=
  if p.data.isPrefixOf s.data then String.mk (s.data.drop p.data.length) else s

/-- Embedding of list_accessible_customers (server.py lines 157-168) as a
function of the resource-name strings the backend call returns. -/
def list_accessible_customers (resource_names : List String) : List String :=
  resource_names.map (fun rn => pyStripLeading rn "customers/")

/-! Regular-expression engine.  search uses four Python regexes (re.search with
re.IGNORECASE); they are embedded by a small backtracking matcher whose result
list enumerates alternatives in exactly the backtracking priority order of the
Python engine, so that taking the head of the list gives the Python match.
Character classes use their ASCII semantics, which is exhaustive for the
queries at issue. -/

/-- Single-character regex items: a literal (matched case-insensitively, since
all four source regexes pass re.IGNORECASE), the dot (any character except
newline), and the classes for whitespace, word and digit characters. -/
inductive RItem where
  | lit : Char → RItem
  | dotAny : RItem
  | clsS : RItem
  | clsW : RItem
  | clsD : RItem

/-- Lower-cased ASCII code of a character, for case-insensitive literals. -/
def lowCode (c : Char) : Nat :=
  let n := c.toNat
  if 65 ≤ n && n ≤ 90 then n + 32 else n

/-- Truth of a regex item on one character.  Whitespace is the Python class
backslash-s (space, tab, newline, carriage return, vertical tab, form feed);
word characters are letters, digits and underscore; digits are 0-9. -/
def itemMatches (i : RItem) (c : Char) : Bool :=
  let n := c.toNat
  match i with
  | .lit l => lowCode c == lowCode l
  | .dotAny => n != 10
  | .clsS => n == 32 || n == 9 || n == 10 || n == 13 || n == 11 || n == 12
  | .clsW => (48 ≤ n && n ≤ 57) || (65 ≤ n && n ≤ 90) || (97 ≤ n && n ≤ 122) || n == 95
  | .clsD => 48 ≤ n && n ≤ 57

/-- Regex syntax covering the four source patterns: empty pattern, one item,
greedy plus, lazy plus, capturing group, concatenation, ordered alternation,
and the dollar anchor (end of string, or just before one trailing newline,
as in Python without re.MULTILINE). -/
inductive Re where
  | eps : Re
  | one : RItem → Re
  | plusG : RItem → Re
  | plusL : RItem → Re
  | grp : Re → Re
  | cat : Re → Re → Re
  | alt2 : Re → Re → Re
  | eos : Re

/-- Length of the maximal run of characters at the head of the input matching
the item. -/
def runLen (i : RItem) : List Char → Nat
  | [] => 0
  | c :: cs => if itemMatches i c then runLen i cs + 1 else 0

/-- All ways a regex can match a prefix of the input, as pairs of (remaining
input, captured group texts), listed in the priority order of a backtracking
engine: greedy plus prefers longer runs first, lazy plus shorter runs first,
alternation prefers the left branch, concatenation backtracks the left factor
last.  The head of the list is the match Python reports. -/
def matchRe : Re → List Char → List (List Char × List (List Char))
  | .eps, l => [(l, [])]
  | .one i, l =>
      match l with
      | [] => []
      | c :: cs => if itemMatches i c then [(cs, [])] else []
  | .plusG i, l =>
      let n := runLen i l
      (List.range n).map (fun k => (l.drop (n - k), []))
  | .plusL i, l =>
      let n := runLen i l
      (List.range n).map (fun k => (l.drop (k + 1), []))
  | .grp r, l =>
      (matchRe r l).map (fun p => (p.1, l.take (l.length - p.1.length) :: p.2))
  | .cat r1 r2, l =>
      (matchRe r1 l).flatMap (fun p => (matchRe r2 p.1).map (fun q => (q.1, p.2 ++ q.2)))
  | .alt2 r1 r2, l => matchRe r1 l ++ matchRe r2 l
  | .eos, l => if l.isEmpty || l == [Char.ofNat 10] then [(l, [])] else []

/-- Leftmost search: try each start position from the left; at the first
position where the pattern matches, return the captured group texts of the
highest-priority match, as Python re.search does. -/
def reSearchAux (r : Re) : List Char → Option (List (List Char))
  | [] => (matchRe r []).head?.map (fun p => p.2)
  | c :: cs =>
      match (matchRe r (c :: cs)).head? with
      | some p => some p.2
      | none => reSearchAux r cs

/-- Python re.search over a string, returning the list of captured groups of
the leftmost match, or none when the pattern matches nowhere. -/
def reSearch (r : Re) (s : String) : Option (List (List Char)) :=
  reSearchAux r s.data

/-- Concatenation of a list of regexes, used to spell out the source patterns. -/
def seqAll (rs : List Re) : Re :=
  rs.foldr Re.cat Re.eps

/-- Literal word as a regex fragment list (each character case-insensitive). -/
def litSeq (s : String) : List Re :=
  s.data.map (fun c => Re.one (RItem.lit c))

/-- Ordered three-way alternation. -/
def alt3 (a b c : Re) : Re :=
  Re.alt2 a (Re.alt2 b c)

/-- Embedding of the pattern SELECT backslash-s+ (.+?) backslash-s+ FROM
backslash-s+ (backslash-w+) from server.py line 197. -/
def selectRe : Re :=
  seqAll (litSeq "SELECT" ++ [Re.plusG .clsS, Re.grp (Re.plusL .dotAny), Re.plusG .clsS]
    ++ litSeq "FROM" ++ [Re.plusG .clsS, Re.grp (Re.plusG .clsW)])

/-- Embedding of the pattern WHERE backslash-s+ (.+?) followed by the
non-capturing alternation of backslash-s+ ORDER backslash-s+ BY, backslash-s+
LIMIT, or the dollar anchor, from server.py line 204. -/
def whereRe : Re :=
  seqAll (litSeq "WHERE" ++ [Re.plusG .clsS, Re.grp (Re.plusL .dotAny),
    alt3 (seqAll ([Re.plusG .clsS] ++ litSeq "ORDER" ++ [Re.plusG .clsS] ++ litSeq "BY"))
         (seqAll ([Re.plusG .clsS] ++ litSeq "LIMIT"))
         Re.eos])

/-- Embedding of the pattern ORDER backslash-s+ BY backslash-s+ (.+?) followed
by the non-capturing alternation of backslash-s+ LIMIT or the dollar anchor,
from server.py line 210. -/
def orderRe : Re :=
  seqAll (litSeq "ORDER" ++ [Re.plusG .clsS] ++ litSeq "BY" ++ [Re.plusG .clsS,
    Re.grp (Re.plusL .dotAny),
    Re.alt2 (seqAll ([Re.plusG .clsS] ++ litSeq "LIMIT")) Re.eos])

/-- Embedding of the pattern LIMIT backslash-s+ (backslash-d+) from server.py
line 216. -/
def limitRe : Re :=
  seqAll (litSeq "LIMIT" ++ [Re.plusG .clsS, Re.grp (Re.plusG .clsD)])

/-! Embedding of the search tool (server.py lines 171-244).  The model covers
the tool from argument handling to the query string handed to the backend
streaming call; the backend interaction itself and the per-batch normalization
loop are external to the query-construction logic the claims address. -/

/-- Truth of a Python optional string: None and the empty string are falsy. -/
def strTruthy : Option String → Bool
  | none => false
  | some s => !s.isEmpty

/-- Truth of a Python optional list: None and the empty list are falsy. -/
def listTruthy : Option (List String) → Bool
  | none => false
  | some [] => false
  | some (_ :: _) => true

/-- Truth of a Python optional int: None and zero are falsy. -/
def intTruthy : Option Int → Bool
  | none => false
  | some n => n != 0

/-- Python whitespace test for str.strip (ASCII). -/
def pyWs (c : Char) : Bool :=
  let n := c.toNat
  n == 32 || n == 9 || n == 10 || n == 13 || n == 11 || n == 12

/-- Python str.strip on a character list: drop whitespace at both ends. -/
def pyStripChars (l : List Char) : List Char :=
  ((l.dropWhile pyWs).reverse.dropWhile pyWs).reverse

/-- Python str.strip() with no arguments. -/
def pyStrip (s : String) : String :=
  String.mk (pyStripChars s.data)

/-- Python str.split on a comma: number of groups is one more than the number
of commas; groups may be empty. -/
def splitComma (l : List Char) : List (List Char) :=
  l.foldr (fun c acc =>
    match acc with
    | [] => [[c]]
    | g :: gs => if c.toNat == 44 then [] :: g :: gs else (c :: g) :: gs) [[]]

/-- Python int() on a digit string (the LIMIT capture is backslash-d+, so the
text is one or more decimal digits). -/
def digitsToInt (l : List Char) : Int :=
  Int.ofNat (l.foldl (fun n c => 10 * n + (c.toNat - 48)) 0)

/-- Python separator.join(parts). -/
def joinWith (sep : String) : List String → String
  | [] => ""
  | x :: rest => rest.foldl (fun acc y => acc ++ sep ++ y) x

/-- Capture number i of a regex match, as a string. -/
def capStr (caps : List (List Char)) (i : Nat) : String :=
  String.mk (caps.getD i [])

/-- Fields list parsed from the first SELECT capture (server.py line 199):
comma-split then strip each piece. -/
def parsedFields (caps : List (List Char)) : List String :=
  (splitComma (caps.getD 0 [])).map (fun g => String.mk (pyStripChars g))

/-- Resource parsed from the second SELECT capture (server.py line 200). -/
def parsedResource (caps : List (List Char)) : String :=
  capStr caps 1

/-- Arguments of the search tool that take part in query construction.
customer_id is passed through opaquely to the backend and plays no role. -/
structure SearchArgs where
  fields : Option (List String)
  resource : Option String
  conditions : Option (List String)
  orderings : Option (List String)
  limit : Option Int
  query : Option String

/-- Errors search raises before any backend service is obtained: the two
ValueError raises at server.py lines 220 and 224, both of which precede the
get_googleads_service call at line 226. -/
inductive SearchError where
  | invalidQuery
  | missingParams
deriving DecidableEq

/-- Embedding of the query-string serialization (server.py lines 228-239):
SELECT-FROM part, then WHERE, ORDER BY and LIMIT parts appended under Python
truthiness of the corresponding argument. -/
def buildQueryString (fields : List String) (resource : String)
    (conditions : Option (List String)) (orderings : Option (List String))
    (limit : Option Int) : String :=
  let p1 := "SELECT " ++ joinWith "," fields ++ " FROM " ++ resource
  let p2 := if listTruthy conditions then " WHERE " ++ joinWith " AND " (conditions.getD []) else ""
  let p3 := if listTruthy orderings then " ORDER BY " ++ joinWith "," (orderings.getD []) else ""
  let p4 := if intTruthy limit then " LIMIT " ++ toString (limit.getD 0) else ""
  p1 ++ p2 ++ p3 ++ p4

/-- Validation and serialization tail of search (server.py lines 222-239): the
required-parameters check, then the query string build. -/
def validateAndBuild (fields : Option (List String)) (resource : Option String)
    (conditions : Option (List String)) (orderings : Option (List String))
    (limit : Option Int) : Except SearchError String :=
  if !listTruthy fields || !strTruthy resource then .error .missingParams
  else .ok (buildQueryString (fields.getD []) (resource.getD "") conditions orderings limit)

/-- Embedding of search (server.py lines 171-239) up to the query string the
backend streaming call receives: free-text parsing when a query argument is
truthy, validation, and serialization.  An error value models the ValueError
raises, both of which happen before any backend service is obtained. -/
def search (a : SearchArgs) : Except SearchError String :=
  if strTruthy a.query then
    let q := pyStrip (a.query.getD "")
    match reSearch selectRe q with
    | none => .error .invalidQuery
    | some caps =>
        let fields := parsedFields caps
        let resource := parsedResource caps
        let conditions :=
          if listTruthy a.conditions then a.conditions
          else match reSearch whereRe q with
               | some wcaps => some [capStr wcaps 0]
               | none => a.conditions
        let orderings :=
          if listTruthy a.orderings then a.orderings
          else match reSearch orderRe q with
               | some ocaps => some [capStr ocaps 0]
               | none => a.orderings
        let limit :=
          if intTruthy a.limit then a.limit
          else match reSearch limitRe q with
               | some lcaps => some (digitsToInt (lcaps.getD 0 []))
               | none => a.limit
        validateAndBuild (some fields) (some resource) conditions orderings limit
  else validateAndBuild a.fields a.resource a.conditions a.orderings a.limit

/-! Helper lemmas. -/

mutual
/-- The converter maps every value to a fixed point: converting twice equals
converting once. -/
theorem ensure_serializable_sq : (v : PyVal) →
    ensure_serializable (ensure_serializable v) = ensure_serializable v
  | .pyNone => rfl
  | .str _ => rfl
  | .int _ => rfl
  | .float _ => rfl
  | .bool _ => rfl
  | .enum _ _ => rfl
  | .pb _ => rfl
  | .other _ => rfl
  | .dict d => congrArg PyVal.dict (ensureEntries_sq d)
  | .list xs => congrArg PyVal.list (ensureItems_sq xs)
  | .tuple xs => congrArg PyVal.list (ensureItems_sq xs)

/-- Entry-list version of ensure_serializable_sq. -/
theorem ensureEntries_sq : (d : PyEntries) → ensureEntries (ensureEntries d) = ensureEntries d
  | .nil => rfl
  | .cons k v rest => by
      show PyEntries.cons k (ensure_serializable (ensure_serializable v))
          (ensureEntries (ensureEntries rest)) = PyEntries.cons k (ensure_serializable v) (ensureEntries rest)
      rw [ensure_serializable_sq v, ensureEntries_sq rest]

/-- Item-list version of ensure_serializable_sq. -/
theorem ensureItems_sq : (xs : PyItems) → ensureItems (ensureItems xs) = ensureItems xs
  | .nil => rfl
  | .cons v rest => by
      show PyItems.cons (ensure_serializable (ensure_serializable v))
          (ensureItems (ensureItems rest)) = PyItems.cons (ensure_serializable v) (ensureItems rest)
      rw [ensure_serializable_sq v, ensureItems_sq rest]
end

/-- Comma-splitting never yields an empty group list. -/
theorem splitComma_ne_nil : ∀ l : List Char, splitComma l ≠ [] := by
  intro l
  induction l with
  | nil => simp [splitComma]
  | cons c rest ih =>
      simp only [splitComma, List.foldr_cons] at ih ⊢
      cases h : (rest.foldr (fun c acc =>
          match acc with
          | [] => [[c]]
          | g :: gs => if c.toNat == 44 then [] :: g :: gs else (c :: g) :: gs) [[]]) with
      | nil => exact absurd h ih
      | cons g gs => by_cases hc : c.toNat == 44 <;> simp [hc]

/-- Fields parsed from a SELECT capture always form a non-empty list. -/
theorem parsedFields_ne_nil (caps : List (List Char)) : parsedFields caps ≠ [] := by
  unfold parsedFields
  intro h
  exact splitComma_ne_nil _ (List.map_eq_nil_iff.mp h)

/-- Emptiness test of a non-empty string. -/
theorem isEmpty_false {s : String} (h : s ≠ "") : s.isEmpty = false := by
  cases hi : s.isEmpty with
  | false => rfl
  | true => exact absurd ((String.isEmpty_iff s).mp hi) h

/-- A truthy optional list is exactly a list with at least one element. -/
theorem listTruthy_some {l : List String} (h : l ≠ []) : listTruthy (some l) = true := by
  cases l with
  | nil => exact absurd rfl h
  | cons x xs => rfl

/-- Falsity of the missing optional list. -/
theorem listTruthy_none : listTruthy none = false := rfl

/-- Truth of a present non-empty list. -/
theorem listTruthy_cons (x : String) (xs : List String) : listTruthy (some (x :: xs)) = true := rfl

/-- Falsity of the missing optional string. -/
theorem strTruthy_none : strTruthy none = false := rfl

/-- Falsity of the missing optional int. -/
theorem intTruthy_none : intTruthy none = false := rfl

/-- Falsity of a present zero int, the Python-truthiness pitfall. -/
theorem intTruthy_zero : intTruthy (some 0) = false := rfl

/-- A truthy optional string is exactly a non-empty string. -/
theorem strTruthy_some {s : String} (h : s ≠ "") : strTruthy (some s) = true := by
  simp [strTruthy, isEmpty_false h]

/-- A truthy optional int is exactly a non-zero value. -/
theorem intTruthy_some {n : Int} (h : n ≠ 0) : intTruthy (some n) = true := by
  simp [intTruthy, h]

/-! Theorems for the claims. -/

/-- C6: the free-text query select a, b from campaign where x > 1 order by a
limit 5, with no explicit structured parameters, builds exactly the query
string SELECT a,b FROM campaign WHERE x > 1 ORDER BY a LIMIT 5: the fields are
the comma-split trimmed SELECT list, the resource is the token after FROM, the
text between WHERE and ORDER BY becomes one condition, the text between ORDER
BY and LIMIT becomes one ordering, and the integer after LIMIT becomes the
limit. -/
theorem C6_concrete_free_text_query :
    search (SearchArgs.mk none none none none none
      (some "select a, b from campaign where x > 1 order by a limit 5")) =
    Except.ok "SELECT a,b FROM campaign WHERE x > 1 ORDER BY a LIMIT 5" := by
  rfl

/-- C7: contrary to the claim (and to the intent of the isProtoEnum branch of
the source), an enumeration value is NOT normalized to its symbolic name:
proto.Enum derives from enum.IntEnum, so the first isinstance test of
_ensure_serializable already catches it and returns it unchanged, and JSON
output then shows its numeric code.  At the enum named ENABLED with code 2 the
converter returns the enum itself, not the string ENABLED. -/
theorem C7_enum_keeps_numeric_value :
    ensure_serializable (PyVal.enum "ENABLED" 2) = PyVal.enum "ENABLED" 2 ∧
    PyVal.enum "ENABLED" 2 ≠ PyVal.str "ENABLED" := by
  exact ⟨rfl, by decide⟩

/-- C8: list_accessible_customers returns one element per backend resource
name, in order, each with the fixed prefix customers/ stripped; in particular
customers/123 becomes 123. -/
theorem C8_strip_customer_resource_names : ∀ ns : List String,
    (list_accessible_customers ns).length = ns.length ∧
    (∀ i : Nat, (list_accessible_customers ns).getD i "" =
      pyStripLeading (ns.getD i "") "customers/") ∧
    list_accessible_customers ["customers/123"] = ["123"] := by
  intro ns
  refine ⟨by simp [list_accessible_customers], ?_, by decide⟩
  intro i
  induction ns generalizing i with
  | nil => cases i <;> rfl
  | cons x xs ih =>
      cases i with
      | zero => rfl
      | succ j => simpa [list_accessible_customers] using ih j

/-- C10: the value converter is idempotent: converting twice yields the same
result as converting once, every produced value being a fixed point. -/
theorem C10_converter_idempotent : ∀ v : PyVal,
    ensure_serializable (ensure_serializable v) = ensure_serializable v := by
  exact ensure_serializable_sq

/-- C1 fails as stated: with a usable fields/resource pair and a present limit
of 0, the built query carries no LIMIT clause at all, because the source guards
the clause with Python truthiness (if limit:), under which 0 is absent. -/
theorem C1_counterexample :
    search (SearchArgs.mk (some ["a", "b"]) (some "campaign") none none (some 0) none) =
      Except.ok "SELECT a,b FROM campaign" ∧
    "SELECT a,b FROM campaign" ≠ "SELECT a,b FROM campaign LIMIT 0" := by
  exact ⟨rfl, by decide⟩

/-- C1 amended: for a usable query spec the built string is exactly the SELECT
part, then the WHERE part joined by AND when conditions are a non-empty list,
then the ORDER BY part joined by commas when orderings are a non-empty list,
then the LIMIT part when a NONZERO limit is present (a present limit of 0
contributes no text, like an absent one — see C4); clauses appear in that
fixed order and absent clauses contribute no text, as the all-present and
one-present cases below show; in particular fields a and b with resource
campaign and nothing else yield exactly SELECT a,b FROM campaign. -/
theorem C1_clause_serialization :
    ∀ (fs : List String) (r : String) (c o : String) (cs os : List String) (m : Int),
    fs ≠ [] → r ≠ "" → m ≠ 0 →
    (search (SearchArgs.mk (some fs) (some r) (some (c :: cs)) (some (o :: os)) (some m) none) =
      Except.ok ("SELECT " ++ joinWith "," fs ++ " FROM " ++ r ++ " WHERE "
        ++ joinWith " AND " (c :: cs) ++ " ORDER BY " ++ joinWith "," (o :: os)
        ++ " LIMIT " ++ toString m)) ∧
    (search (SearchArgs.mk (some fs) (some r) none none none none) =
      Except.ok ("SELECT " ++ joinWith "," fs ++ " FROM " ++ r)) ∧
    (search (SearchArgs.mk (some fs) (some r) (some (c :: cs)) none none none) =
      Except.ok ("SELECT " ++ joinWith "," fs ++ " FROM " ++ r ++ " WHERE "
        ++ joinWith " AND " (c :: cs))) ∧
    (search (SearchArgs.mk (some fs) (some r) none (some (o :: os)) none none) =
      Except.ok ("SELECT " ++ joinWith "," fs ++ " FROM " ++ r ++ " ORDER BY "
        ++ joinWith "," (o :: os))) ∧
    (search (SearchArgs.mk (some fs) (some r) none none (some m) none) =
      Except.ok ("SELECT " ++ joinWith "," fs ++ " FROM " ++ r ++ " LIMIT " ++ toString m)) ∧
    search (SearchArgs.mk (some ["a", "b"]) (some "campaign") none none none none) =
      Except.ok "SELECT a,b FROM campaign" := by
  intro fs r c o cs os m hfs hr hm
  have hre : r.isEmpty = false := isEmpty_false hr
  have hb : (m != 0) = true := by simpa using hm
  refine ⟨?_, ?_, ?_, ?_, ?_, rfl⟩ <;>
    simp [search, validateAndBuild, strTruthy, strTruthy_none, listTruthy_some hfs, hre,
      buildQueryString, listTruthy_none, listTruthy_cons, intTruthy_none, intTruthy_some hm,
      String.append_empty, String.append_assoc]

/-- C1 amended, instantiated: one condition, one ordering and limit 2
serialize to the full fixed-order clause string. -/
theorem C1_clause_serialization_witness :
    search (SearchArgs.mk (some ["f1"]) (some "res") (some ["c1"]) (some ["o1"])
      (some 2) none) = Except.ok "SELECT f1 FROM res WHERE c1 ORDER BY o1 LIMIT 2" := by
  exact ((C1_clause_serialization ["f1"] "res" "c1" "o1" [] [] 2 (by decide) (by decide)
    (by decide)).1).trans rfl

/-- C3: invalid inputs make search fail before the backend service is ever
obtained (in the source both raises precede the get_googleads_service call):
a truthy free-text query whose SELECT-FROM clause does not match fails with the
syntax error and no fallback, and a call without a truthy query in which
fields or resource is missing or empty fails with the validation error. -/
theorem C3_validation_before_backend :
    (∀ (a : SearchArgs) (q : String), a.query = some q → q ≠ "" →
       reSearch selectRe (pyStrip q) = none → search a = Except.error SearchError.invalidQuery) ∧
    (∀ a : SearchArgs, strTruthy a.query = false →
       (listTruthy a.fields = false ∨ strTruthy a.resource = false) →
       search a = Except.error SearchError.missingParams) := by
  constructor
  · rintro ⟨f0, r0, c0, o0, l0, q0⟩ q hq hne hre
    subst hq
    simp only [search, strTruthy_some hne, if_true, Option.getD_some] at *
    simp [hre]
  · rintro ⟨f0, r0, c0, o0, l0, q0⟩ hq hmiss
    simp only [search, hq, Bool.false_eq_true, if_false, validateAndBuild]
    rcases hmiss with h | h <;> simp [h]

/-- C3, instantiated: a free text with no SELECT-FROM clause errors out with
the syntax error, and a call with fields but no resource errors out with the
validation error. -/
theorem C3_validation_before_backend_witness :
    search (SearchArgs.mk none none none none none (some "no gaql here")) =
      Except.error SearchError.invalidQuery ∧
    search (SearchArgs.mk (some ["a"]) none none none none none) =
      Except.error SearchError.missingParams := by
  exact ⟨C3_validation_before_backend.1 _ "no gaql here" rfl (by decide) rfl,
    C3_validation_before_backend.2 _ rfl (Or.inr rfl)⟩

/-- C4 fails as stated: an explicit limit of 0 with a usable fields/resource
pair yields a query with no LIMIT clause rather than one ending in LIMIT 0. -/
theorem C4_counterexample :
    search (SearchArgs.mk (some ["a"]) (some "ad_group") none none (some 0) none) =
      Except.ok "SELECT a FROM ad_group" ∧
    "SELECT a FROM ad_group" ≠ "SELECT a FROM ad_group LIMIT 0" := by
  exact ⟨rfl, by decide⟩

/-- C4 amended: an explicit limit of 0 behaves exactly like an omitted limit
(the Python truthiness guards if limit: and if not limit: treat 0 as absent):
it produces no LIMIT clause, it IS overwritten by a LIMIT parsed from a
free-text query, and only a nonzero limit is emitted as a LIMIT clause. -/
theorem C4_zero_limit_behavior :
    (∀ (f0 : Option (List String)) (r0 : Option String) (c0 o0 : Option (List String)),
       search (SearchArgs.mk f0 r0 c0 o0 (some 0) none) =
         search (SearchArgs.mk f0 r0 c0 o0 none none)) ∧
    search (SearchArgs.mk none none none none (some 0) (some "select a from customer limit 7")) =
      Except.ok "SELECT a FROM customer LIMIT 7" ∧
    (∀ (fs : List String) (r : String) (n : Int), fs ≠ [] → r ≠ "" → n ≠ 0 →
       search (SearchArgs.mk (some fs) (some r) none none (some n) none) =
         Except.ok ("SELECT " ++ joinWith "," fs ++ " FROM " ++ r ++ " LIMIT " ++ toString n)) := by
  refine ⟨?_, rfl, ?_⟩
  · intro f0 r0 c0 o0
    cases h : (!listTruthy f0 || !strTruthy r0) <;>
      simp [search, strTruthy_none, validateAndBuild, h, buildQueryString,
        intTruthy_none, intTruthy_zero]
  · intro fs r n hfs hr hn
    have hre : r.isEmpty = false := isEmpty_false hr
    simp [search, validateAndBuild, strTruthy, strTruthy_none, listTruthy_some hfs, hre,
      buildQueryString, listTruthy_none, intTruthy_some hn,
      String.append_empty, String.append_assoc]

/-- C4 amended, instantiated: a nonzero limit of 4 is emitted. -/
theorem C4_zero_limit_behavior_witness :
    search (SearchArgs.mk (some ["x"]) (some "ad_group") none none (some 4) none) =
      Except.ok "SELECT x FROM ad_group LIMIT 4" := by
  exact (C4_zero_limit_behavior.2.2 ["x"] "ad_group" 4 (by decide) (by decide)
    (by decide)).trans rfl

/-- C5 fails as stated: the caller explicitly supplies limit 0 together with a
free-text query carrying LIMIT 5, and the built query uses the parsed 5 — a
parsed value populated a parameter the caller did supply (under the claim the
output would carry the explicit limit, hence not LIMIT 5). -/
theorem C5_counterexample :
    search (SearchArgs.mk none none none none (some 0)
      (some "select a from campaign limit 5")) =
      Except.ok "SELECT a FROM campaign LIMIT 5" ∧
    "SELECT a FROM campaign LIMIT 5" ≠ "SELECT a FROM campaign LIMIT 0" ∧
    "SELECT a FROM campaign LIMIT 5" ≠ "SELECT a FROM campaign" := by
  exact ⟨rfl, by decide, by decide⟩

/-- C5 amended: explicitly supplied TRUTHY structured parameters take
precedence over values parsed from the free text: when the caller passes a
non-empty conditions list, a non-empty orderings list and a nonzero limit
alongside a free-text query whose SELECT-FROM clause matches, the built query
uses exactly the explicit values (whatever WHERE, ORDER BY or LIMIT text the
query contains is ignored); falsy explicit values — an empty list or a limit
of 0 — are treated as unsupplied and are populated from the free text. -/
theorem C5_explicit_precedence :
    ∀ (f0 : Option (List String)) (r0 : Option String) (q : String)
      (caps : List (List Char)) (cs os : List String) (n : Int),
    q ≠ "" → reSearch selectRe (pyStrip q) = some caps →
    cs ≠ [] → os ≠ [] → n ≠ 0 → parsedResource caps ≠ "" →
    search (SearchArgs.mk f0 r0 (some cs) (some os) (some n) (some q)) =
      Except.ok (buildQueryString (parsedFields caps) (parsedResource caps)
        (some cs) (some os) (some n)) := by
  intro f0 r0 q caps cs os n hq hre hcs hos hn hres
  simp [search, strTruthy, isEmpty_false hq, hre, listTruthy_some hcs, listTruthy_some hos,
    intTruthy_some hn, validateAndBuild, listTruthy_some (parsedFields_ne_nil caps),
    isEmpty_false hres]

/-- C5 amended, instantiated: a query with WHERE x > 1 and LIMIT 9 loses to
the differing explicit conditions, orderings and limit. -/
theorem C5_explicit_precedence_witness :
    search (SearchArgs.mk none none (some ["y = 2"]) (some ["b"]) (some 3)
      (some "select a from campaign where x > 1 limit 9")) =
      Except.ok "SELECT a FROM campaign WHERE y = 2 ORDER BY b LIMIT 3" := by
  exact (C5_explicit_precedence none none "select a from campaign where x > 1 limit 9"
    ["a".data, "campaign".data] ["y = 2"] ["b"] 3 (by decide) rfl (by decide) (by decide)
    (by decide) (by decide)).trans rfl

/-- Insertion of a key absent from the dict appends the pair at the end. -/
theorem dictInsert_fresh (acc : List (String × PyVal)) (k : String) (v : PyVal)
    (h : ∀ p ∈ acc, p.1 ≠ k) : dictInsert acc k v = acc ++ [(k, v)] := by
  have hany : acc.any (fun p => p.1 == k) = false := by
    rw [List.any_eq_false]
    intro p hp
    simpa using h p hp
  simp [dictInsert, hany]

/-- Folding dict insertion over pairwise-distinct fresh keys appends the pairs
in order. -/
theorem pyDict_fold (f : String → PyVal) :
    ∀ (attrs : List String) (acc : List (String × PyVal)),
    attrs.Nodup → (∀ a ∈ attrs, ∀ p ∈ acc, p.1 ≠ a) →
    attrs.foldl (fun d a => dictInsert d a (f a)) acc =
      acc ++ attrs.map (fun a => (a, f a)) := by
  intro attrs
  induction attrs with
  | nil => intro acc _ _; simp
  | cons a rest ih =>
      intro acc hnd hfresh
      rw [List.foldl_cons, dictInsert_fresh acc a (f a) (fun p hp => hfresh a (by simp) p hp),
        ih (acc ++ [(a, f a)]) hnd.of_cons ?_]
      · simp
      · intro b hb p hp
        rcases List.mem_append.mp hp with hpacc | hpsing
        · exact hfresh b (List.mem_cons_of_mem a hb) p hpacc
        · have hpa : p = (a, f a) := by simpa using hpsing
          subst hpa
          intro hcontra
          apply (List.nodup_cons.mp hnd).1
          have hab : a = b := hcontra
          rw [hab]
          exact hb

/-- A dict comprehension over pairwise-distinct keys is the ordered list of
key-value pairs. -/
theorem pyDictOfComp_eq_map (f : String → PyVal) (attrs : List String) (h : attrs.Nodup) :
    pyDictOfComp f attrs = attrs.map (fun a => (a, f a)) := by
  simpa [pyDictOfComp] using pyDict_fold f attrs [] h (by simp)

/-- C2 fails as stated: in this row, resolution of path a fails (with message
boom) while path b resolves to a dict with a tuple key; that dict makes the
whole-record serialization check fail, so the fallback record is returned and
the failing path a maps to N/A, not to an Error-prefixed string. -/
theorem C2_counterexample :
    format_output_row (AdsRow.mk
      (fun a => if a == "a" then Except.error "boom"
                else Except.ok (PyVal.dict (PyEntries.cons (PyVal.tuple PyItems.nil)
                  (PyVal.int 1) PyEntries.nil)))
      (fun _ => none)) ["a", "b"] =
      [("a", PyVal.str "N/A"), ("b", PyVal.str "N/A")] ∧
    PyVal.str "N/A" ≠ PyVal.str ("Error: " ++ "boom") := by
  exact ⟨rfl, by decide⟩

/-- C2 amended: for every row and duplicate-free field mask the normalizer is
total and returns a record with exactly one entry per mask path in mask order
(in both the normal and the fallback branch); and PROVIDED the built record
passes the whole-record JSON-serialization check, a path whose resolution
fails maps to the string Error: followed by the failure description while
every other path maps to its converted value (when the check fails, the C9
fallback record is returned instead). -/
theorem C2_normalizer_record :
    ∀ (row : AdsRow) (mask : List String), mask.Nodup →
    ((format_output_row row mask).map Prod.fst = mask) ∧
    (recordJsonOK (pyDictOfComp (rowValue row) mask) = true →
      format_output_row row mask = mask.map (fun a =>
        (a, match row.nested a with
            | Except.ok v => format_output_value v
            | Except.error e => PyVal.str ("Error: " ++ e)))) := by
  intro row mask hnd
  constructor
  · simp only [format_output_row]
    split <;> simp [pyDictOfComp_eq_map _ _ hnd, List.map_map, Function.comp_def]
  · intro hj
    simp only [format_output_row, hj, if_true]
    rw [pyDictOfComp_eq_map _ _ hnd]
    congr 1

/-- C2 amended, instantiated: path a fails with message boom, path b converts
to the integer 7, and the record lists both paths in mask order. -/
theorem C2_normalizer_record_witness :
    format_output_row (AdsRow.mk
      (fun a => if a == "a" then Except.error "boom" else Except.ok (PyVal.int 7))
      (fun _ => none)) ["a", "b"] =
      [("a", PyVal.str "Error: boom"), ("b", PyVal.int 7)] := by
  exact ((C2_normalizer_record (AdsRow.mk
    (fun a => if a == "a" then Except.error "boom" else Except.ok (PyVal.int 7))
    (fun _ => none)) ["a", "b"] (by decide)).2 rfl).trans rfl

/-- C9: whenever the built record fails the whole-record JSON-serialization
check, normalization still returns a record (one entry per requested path, in
order) in which each path maps to the best-effort string rendering of the
row's top-level attribute named by the first dotted segment, with N/A
substituted when that attribute is absent. -/
theorem C9_fallback_record :
    ∀ (row : AdsRow) (mask : List String), mask.Nodup →
    recordJsonOK (pyDictOfComp (rowValue row) mask) = false →
    format_output_row row mask = mask.map (fun a =>
      (a, PyVal.str (match row.top (firstSegment a) with
                     | some v => pyStr v
                     | none => "N/A"))) := by
  intro row mask hnd hj
  simp only [format_output_row, hj, Bool.false_eq_true, if_false]
  rw [pyDictOfComp_eq_map _ _ hnd]
  congr 1

/-- C9, instantiated: the nested value of path x.y is a dict with a tuple key,
which fails the JSON check; the fallback reads top-level attribute x and
renders its string value. -/
theorem C9_fallback_record_witness :
    format_output_row (AdsRow.mk
      (fun _ => Except.ok (PyVal.dict (PyEntries.cons (PyVal.tuple PyItems.nil)
        (PyVal.int 1) PyEntries.nil)))
      (fun t => if t == "x" then some (PyVal.str "topval") else none)) ["x.y"] =
      [("x.y", PyVal.str "topval")] := by
  exact (C9_fallback_record (AdsRow.mk
    (fun _ => Except.ok (PyVal.dict (PyEntries.cons (PyVal.tuple PyItems.nil)
      (PyVal.int 1) PyEntries.nil)))
    (fun t => if t == "x" then some (PyVal.str "topval") else none)) ["x.y"]
    (by decide) rfl).trans rfl

end AdsMcp
